import Mathlib

/-!
Shallow embedding of the eva-foundation MCP knowledge server
(`src/hello_mcp.py`) and of the knowledge-base ingestion helper
(`src/scripts/ingest_knowledge_base.py`).

Modelling conventions:
* Python strings are Lean `String`s (sequences of unicode code points; Python
  `len`/slicing by code point matches `String.length`/`String.take`).
* Python `int` is `ℤ`; `range(k)` for negative `k` is empty, which is
  `(Int.toNat)` composed with `List.range`.
* The Python float literals `0.9`, `0.1`, `0.85` and the arithmetic
  `0.9 - (i * 0.1)` (for `i ≤ 2`) are modelled as exact rationals; for these
  small decimal values IEEE rounding preserves order and the `[0,1]` bounds,
  so the claims about ordering and bounds transfer.
* A Python handler body that may raise is modelled as an `Except String α`
  value (the exception's message string); the `try/except` router layers are
  total Lean functions on that value, so totality in Lean is exactly
  "no exception propagates".
* Python dicts returned by the tool handlers are modelled as records with the
  same field names.
-/

namespace EvaFoundation

/-- `mcp.types.TextContent`: one typed content block (`type="text"`). -/
structure TextContent where
  type : String
  text : String
  deriving Repr, DecidableEq

/-- `mcp.types.ReadResourceResult`: the response envelope of a resource read. -/
structure ReadResourceResult where
  contents : List TextContent
  deriving Repr, DecidableEq

/-- `mcp.types.CallToolResult`: the response envelope of a tool call. -/
structure CallToolResult where
  content : List TextContent
  deriving Repr, DecidableEq

/-- `EVAMCPServer.knowledge_base_path` (`hello_mcp.py` line 51). -/
def knowledge_base_path : String :=
  "../eva-da-2/public/knowledge_articles_r2r3_en 2.xml"

/-- Outcome of the filesystem interaction inside `_read_full_knowledge_base`:
the backing XML file exists with some content, is missing, or reading raises. -/
inductive FileOutcome where
  | found (content : String)
  | missing
  | readFailure (e : String)
  deriving Repr, DecidableEq

/-- `EVAMCPServer._read_full_knowledge_base` (`hello_mcp.py` lines 202-212):
its own `try/except` turns every outcome into a string, so it never raises. -/
def _read_full_knowledge_base (kb : FileOutcome) : String :=
  match kb with
  | .found content => "Knowledge base loaded: " ++ toString content.length ++ " characters"
  | .missing => "Knowledge base not found at: " ++ knowledge_base_path
  | .readFailure e => "Error reading knowledge base: " ++ e

/-- `EVAMCPServer._extract_abgr_content` (`hello_mcp.py` lines 214-228):
a constant placeholder string. -/
def _extract_abgr_content : String :=
  "\n        \x7b\n          \"abgr_content\": \x7b\n            \"agent_regulations\": [\"Regulation A\", \"Regulation B\"],\n            \"compliance_procedures\": [\"Procedure 1\", \"Procedure 2\"], \n            \"government_guidelines\": [\"Guideline X\", \"Guideline Y\"],\n            \"extracted_from\": \"AssistMe Knowledge Base\",\n            \"focus\": \"Government Agent Operations\"\n          \x7d\n        \x7d\n        "

/-- `EVAMCPServer._get_search_interface` (`hello_mcp.py` lines 230-243):
a constant placeholder string. -/
def _get_search_interface : String :=
  "\n        \x7b\n          \"search_capabilities\": \x7b\n            \"semantic_search\": \"Vector-based document similarity\",\n            \"keyword_search\": \"Traditional text matching\", \n            \"hybrid_search\": \"Combined semantic and keyword\",\n            \"agent_filtering\": \"ABGR-specific content focus\",\n            \"citation_extraction\": \"Legal reference identification\"\n          \x7d,\n          \"available_tools\": [\"search_jurisprudence\", \"extract_citations\", \"get_abgr_summary\"]\n        \x7d\n        "

/-- The dispatch chain inside `read_resource` (`hello_mcp.py` lines 86-96):
exact string match on the three known URIs, otherwise the
`"Unknown resource: {uri}"` text. -/
def read_resource_dispatch (uri : String) (kb : FileOutcome) : String :=
  if uri = "knowledge://jurisprudence/all" then _read_full_knowledge_base kb
  else if uri = "knowledge://jurisprudence/abgr" then _extract_abgr_content
  else if uri = "knowledge://jurisprudence/search" then _get_search_interface
  else "Unknown resource: " ++ uri

/-- The `try/except` router layer of `read_resource` (`hello_mcp.py` lines
88-106): the body either produces a content string (lines 98-100) or raises
with message `e` (lines 102-106). -/
def read_resource_router : Except String String → ReadResourceResult
  | .ok content => ⟨[⟨"text", content⟩]⟩
  | .error e => ⟨[⟨"text", "Error: " ++ e⟩]⟩

/-- `read_resource` (`hello_mcp.py` lines 84-106) as the code stands: the
dispatch chain never raises, so the router always receives `.ok`. -/
def read_resource (uri : String) (kb : FileOutcome) : ReadResourceResult :=
  read_resource_router (Except.ok (read_resource_dispatch uri kb))

/-- One entry of the placeholder results list built by `_search_jurisprudence`
(`hello_mcp.py` lines 252-258). -/
structure SearchResultItem where
  title : String
  content : String
  relevance_score : ℚ
  source : String
  abgr_related : Bool
  deriving Repr, DecidableEq

/-- The dict returned by `_search_jurisprudence` (`hello_mcp.py` lines 248-262). -/
structure SearchResults where
  query : String
  agent_focus : Bool
  results : List SearchResultItem
  total_found : ℤ
  deriving Repr, DecidableEq

/-- `EVAMCPServer._search_jurisprudence` (`hello_mcp.py` lines 245-263).
`for i in range(min(max_results, 3))` over a Python `int` is
`List.range (min max_results 3).toNat`; `0.9 - (i * 0.1)` is taken exactly. -/
def _search_jurisprudence (query : String) (agent_focus : Bool) (max_results : ℤ) :
    SearchResults :=
  { query := query
    agent_focus := agent_focus
    results := (List.range (min max_results 3).toNat).map (fun (i : ℕ) =>
      { title := "Legal Document " ++ toString (i + 1)
        content := "Content related to: " ++ query
        relevance_score := 9/10 - (i : ℚ) * (1/10)
        source := "AssistMe Knowledge Base"
        abgr_related := agent_focus })
    total_found := min max_results 3 }

/-- One `{type, reference}` citation entry (`hello_mcp.py` lines 271-272). -/
structure CitationRef where
  type : String
  reference : String
  deriving Repr, DecidableEq

/-- The dict returned by `_extract_citations` (`hello_mcp.py` lines 268-275). -/
structure CitationResult where
  text_analyzed : String
  citations_found : List CitationRef
  extraction_confidence : ℚ
  deriving Repr, DecidableEq

/-- `EVAMCPServer._extract_citations` (`hello_mcp.py` lines 265-275):
`text[:100] + "..." if len(text) > 100 else text` truncates the echoed
preview; the function body receives the full `text`. -/
def _extract_citations (text : String) : CitationResult :=
  { text_analyzed := if text.length > 100 then text.take 100 ++ "..." else text
    citations_found :=
      [⟨"statute", "Example Act, s. 123"⟩,
       ⟨"regulation", "Example Regulation 456/2024"⟩]
    extraction_confidence := 85/100 }

/-- The nested `abgr_summary` dict (`hello_mcp.py` lines 281-291). -/
structure AbgrSummaryBody where
  total_regulations : ℕ
  key_areas : List String
  recent_updates : String
  compliance_level : String
  deriving Repr, DecidableEq

/-- The dict returned by `_get_abgr_summary` (`hello_mcp.py` lines 279-293). -/
structure AbgrSummary where
  topic : String
  abgr_summary : AbgrSummaryBody
  knowledge_source : String
  deriving Repr, DecidableEq

/-- `EVAMCPServer._get_abgr_summary` (`hello_mcp.py` lines 277-293). -/
def _get_abgr_summary (topic : String) : AbgrSummary :=
  { topic := topic
    abgr_summary :=
      { total_regulations := 15
        key_areas :=
          ["Agent Authorization Procedures",
           "Compliance Requirements",
           "Reporting Standards",
           "Operational Guidelines"]
        recent_updates := "November 2024"
        compliance_level := "Protected B" }
    knowledge_source := "AssistMe Jurisprudence Database" }

/-- An `inputSchema` as declared in `list_tools` (`hello_mcp.py` lines
115-162): the declared property names and the declared `required` set. -/
structure InputSchema where
  properties : List String
  required : List String
  deriving Repr, DecidableEq

/-- A `Tool` descriptor as declared in `list_tools`. -/
structure ToolDecl where
  name : String
  description : String
  inputSchema : InputSchema
  deriving Repr, DecidableEq

/-- `list_tools` (`hello_mcp.py` lines 108-166): the three tool descriptors,
with `query` required for `search_jurisprudence`, `text` required for
`extract_citations`, and nothing required for `get_abgr_summary`. -/
def list_tools : List ToolDecl :=
  [⟨"search_jurisprudence",
    "Search across jurisprudence articles with semantic matching",
    ⟨["query", "agent_focus", "max_results"], ["query"]⟩⟩,
   ⟨"extract_citations",
    "Extract and validate legal citations from text",
    ⟨["text"], ["text"]⟩⟩,
   ⟨"get_abgr_summary",
    "Get summary of agent-related regulations and procedures",
    ⟨["topic"], []⟩⟩]

/-- The argument bag of a tool call (`request.params.arguments`): each key the
handlers look up, present or absent. -/
structure ToolArguments where
  query : Option String
  agent_focus : Option Bool
  max_results : Option ℤ
  text : Option String
  topic : Option String
  deriving Repr, DecidableEq

/-- The empty argument dict `{}`. -/
def emptyArguments : ToolArguments := ⟨none, none, none, none, none⟩

/-- The value computed by the tool dispatch chain in `call_tool`
(`hello_mcp.py` lines 175-190): a dict for the three known tools, the
`"Unknown tool: {tool_name}"` string otherwise. -/
inductive ToolResult where
  | search (r : SearchResults)
  | citations (r : CitationResult)
  | summary (r : AbgrSummary)
  | unknown (message : String)
  deriving Repr, DecidableEq

/-- The dispatch chain of `call_tool` (`hello_mcp.py` lines 171-190):
`arguments = request.params.arguments or {}`, then each handler argument is
read with `arguments.get(key, default)`. -/
def call_tool_dispatch (tool_name : String) (arguments : Option ToolArguments) :
    ToolResult :=
  let args := arguments.getD emptyArguments
  if tool_name = "search_jurisprudence" then
    ToolResult.search
      (_search_jurisprudence (args.query.getD "") (args.agent_focus.getD false)
        (args.max_results.getD 5))
  else if tool_name = "extract_citations" then
    ToolResult.citations (_extract_citations (args.text.getD ""))
  else if tool_name = "get_abgr_summary" then
    ToolResult.summary (_get_abgr_summary (args.topic.getD "all"))
  else
    ToolResult.unknown ("Unknown tool: " ++ tool_name)

/-- A Python `bool` rendered by `str`. -/
def pyBool (b : Bool) : String := if b then "True" else "False"

/-- Rendering of a rational score inside `str(result)`. Python prints the
float repr; the exact value is rendered here instead (an abstraction — no
behaviour in the source depends on this text). -/
def qStr (q : ℚ) : String := toString q.num ++ "/" ++ toString q.den

/-- `str` of one search-result dict entry. -/
def searchItemStr (s : SearchResultItem) : String :=
  "\x7b'title': '" ++ s.title ++ "', 'content': '" ++ s.content ++
    "', 'relevance_score': " ++ qStr s.relevance_score ++ ", 'source': '" ++
    s.source ++ "', 'abgr_related': " ++ pyBool s.abgr_related ++ "\x7d"

/-- `str` of the `_search_jurisprudence` result dict. -/
def searchResultsStr (r : SearchResults) : String :=
  "\x7b'query': '" ++ r.query ++ "', 'agent_focus': " ++ pyBool r.agent_focus ++
    ", 'results': [" ++ String.intercalate ", " (r.results.map searchItemStr) ++
    "], 'total_found': " ++ toString r.total_found ++ "\x7d"

/-- `str` of one citation dict entry. -/
def citationRefStr (c : CitationRef) : String :=
  "\x7b'type': '" ++ c.type ++ "', 'reference': '" ++ c.reference ++ "'\x7d"

/-- `str` of the `_extract_citations` result dict. -/
def citationResultStr (r : CitationResult) : String :=
  "\x7b'text_analyzed': '" ++ r.text_analyzed ++ "', 'citations_found': [" ++
    String.intercalate ", " (r.citations_found.map citationRefStr) ++
    "], 'extraction_confidence': " ++ qStr r.extraction_confidence ++ "\x7d"

/-- `str` of the `_get_abgr_summary` result dict. -/
def abgrSummaryStr (r : AbgrSummary) : String :=
  "\x7b'topic': '" ++ r.topic ++ "', 'abgr_summary': \x7b'total_regulations': " ++
    toString r.abgr_summary.total_regulations ++ ", 'key_areas': [" ++
    String.intercalate ", " (r.abgr_summary.key_areas.map (fun a => "'" ++ a ++ "'")) ++
    "], 'recent_updates': '" ++ r.abgr_summary.recent_updates ++
    "', 'compliance_level': '" ++ r.abgr_summary.compliance_level ++
    "'\x7d, 'knowledge_source': '" ++ r.knowledge_source ++ "'\x7d"

/-- Python `str(result)` as applied on `hello_mcp.py` line 193: `str` of a
Python string is that string itself (the only case any claim depends on); the
dict results render through the structural renderers above. -/
def pyStr : ToolResult → String
  | .search r => searchResultsStr r
  | .citations r => citationResultStr r
  | .summary r => abgrSummaryStr r
  | .unknown message => message

/-- The `try/except` router layer of `call_tool` (`hello_mcp.py` lines
174-200): the body either produces a tool result (wrapped on lines 192-194)
or raises with message `e` (lines 196-200). -/
def call_tool_router : Except String ToolResult → CallToolResult
  | .ok result => ⟨[⟨"text", pyStr result⟩]⟩
  | .error e => ⟨[⟨"text", "Tool error: " ++ e⟩]⟩

/-- `call_tool` (`hello_mcp.py` lines 169-200) as the code stands: the
dispatch chain never raises, so the router always receives `.ok`. -/
def call_tool (tool_name : String) (arguments : Option ToolArguments) :
    CallToolResult :=
  call_tool_router (Except.ok (call_tool_dispatch tool_name arguments))

/-! ### Ingestion helper (`src/scripts/ingest_knowledge_base.py`) -/

/-- A loosely-typed JSON value, the shape of `Dict[str, Any]` payloads and of
`response.json()` bodies in the ingestion script. -/
inductive Json where
  | null
  | bool (b : Bool)
  | str (s : String)
  | num (q : ℚ)
  | arr (elems : List Json)
  | obj (fields : List (String × Json))
  deriving Repr

/-- Python `dict.get(key)` on a JSON object: `none` both when the value is not
an object and when the key is absent. -/
def Json.get : Json → String → Option Json
  | .obj fields, key => (fields.find? (fun p => p.1 = key)).map Prod.snd
  | _, _ => none

/-- Python truthiness of `d.get(key)` (absent key gives `None`, which is
falsy). -/
def pyTruthy : Option Json → Bool
  | none => false
  | some .null => false
  | some (.bool b) => b
  | some (.str s) => decide (s ≠ "")
  | some (.num q) => decide (q ≠ 0)
  | some (.arr elems) => !elems.isEmpty
  | some (.obj fields) => !fields.isEmpty

/-- Default configuration values (`ingest_knowledge_base.py` lines 38-42),
as read when the environment variables are unset. -/
def CONTAINER_NAME : String := "knowledge-sources"

/-- The request payload built by `trigger_ingestion`
(`ingest_knowledge_base.py` lines 138-143). -/
def ingestion_payload (blob_name tenant_id : String) (abgr_only : Bool) : Json :=
  Json.obj
    [("tenantId", Json.str tenant_id),
     ("blobName", Json.str blob_name),
     ("containerName", Json.str CONTAINER_NAME),
     ("abgrOnly", Json.bool abgr_only)]

/-- Outcome of the HTTP POST inside `trigger_ingestion`: a 2xx response with
a JSON body, a `requests.exceptions.Timeout`, or any other
`requests.exceptions.RequestException` (a non-2xx status surfaces here too,
via `raise_for_status`). -/
inductive IngestionHttp where
  | ok (body : Json)
  | timeout
  | requestFailure (e : String)
  deriving Repr

/-- The dict returned on the timeout branch
(`ingest_knowledge_base.py` line 169). -/
def timeoutResult : Json :=
  Json.obj
    [("error", Json.str "timeout"),
     ("message", Json.str "Check Azure portal for function execution logs")]

/-- `trigger_ingestion` (`ingest_knowledge_base.py` lines 108-179), with the
HTTP interaction explicit: on success the parsed body is returned; on
`Timeout` the literal error dict of line 169 is returned (no raise); on any
other `RequestException` the exception is re-raised (line 179), modelled as
`Except.error`. -/
def trigger_ingestion (blob_name tenant_id : String) (abgr_only : Bool)
    (outcome : IngestionHttp) : Except String Json :=
  match outcome with
  | .ok body => Except.ok body
  | .timeout => Except.ok timeoutResult
  | .requestFailure e => Except.error e

/-! ### Theorems -/

/-- C1: Within the protocol router's handled paths (resource read, tool call),
any exception raised by the handler body or a collaborator — modelled as an
arbitrary `Except.error e` outcome of the `try` block — is converted into a
well-formed response envelope carrying an error-describing text block.
`read_resource_router` and `call_tool_router` are total Lean functions, so no
exception ever propagates to the transport. -/
theorem router_converts_every_error (e : String) :
    read_resource_router (Except.error e) = ⟨[⟨"text", "Error: " ++ e⟩]⟩ ∧
    call_tool_router (Except.error e) = ⟨[⟨"text", "Tool error: " ++ e⟩]⟩ :=
  ⟨rfl, rfl⟩

/-- C9: Every response envelope produced by `read_resource` or `call_tool`,
on the success path as well as on the error path (i.e. for every outcome of
the handler body), contains at least one content block. -/
theorem envelope_never_empty (rbody : Except String String)
    (tbody : Except String ToolResult) :
    1 ≤ (read_resource_router rbody).contents.length ∧
    1 ≤ (call_tool_router tbody).content.length := by
  refine ⟨?_, ?_⟩
  · cases rbody <;> simp [read_resource_router]
  · cases tbody <;> simp [call_tool_router]

/-- C6: For every URI other than the three known resource URIs,
`read_resource` returns a success envelope (one text block, not an error and
not an exception) whose text contains the unknown URI verbatim. -/
theorem unknown_resource_uri_success (uri : String) (kb : FileOutcome)
    (h1 : uri ≠ "knowledge://jurisprudence/all")
    (h2 : uri ≠ "knowledge://jurisprudence/abgr")
    (h3 : uri ≠ "knowledge://jurisprudence/search") :
    read_resource uri kb = ⟨[⟨"text", "Unknown resource: " ++ uri⟩]⟩ ∧
    ∃ p, "Unknown resource: " ++ uri = p ++ uri := by
  refine ⟨?_, ⟨"Unknown resource: ", rfl⟩⟩
  simp [read_resource, read_resource_dispatch, read_resource_router, h1, h2, h3]

/-- Witness for C6 at the concrete unknown URI `knowledge://other`. -/
theorem unknown_resource_uri_success_witness :
    read_resource "knowledge://other" FileOutcome.missing
        = ⟨[⟨"text", "Unknown resource: " ++ "knowledge://other"⟩]⟩ ∧
    ∃ p, "Unknown resource: " ++ "knowledge://other" = p ++ "knowledge://other" :=
  unknown_resource_uri_success "knowledge://other" FileOutcome.missing
    (by decide) (by decide) (by decide)

/-- C7: For every tool name other than the three known tool names,
`call_tool` returns a success envelope (one text block, not a thrown error)
whose text contains the unknown tool name verbatim. -/
theorem unknown_tool_name_success (tool_name : String)
    (arguments : Option ToolArguments)
    (h1 : tool_name ≠ "search_jurisprudence")
    (h2 : tool_name ≠ "extract_citations")
    (h3 : tool_name ≠ "get_abgr_summary") :
    call_tool tool_name arguments = ⟨[⟨"text", "Unknown tool: " ++ tool_name⟩]⟩ ∧
    ∃ p, "Unknown tool: " ++ tool_name = p ++ tool_name := by
  refine ⟨?_, ⟨"Unknown tool: ", rfl⟩⟩
  simp [call_tool, call_tool_dispatch, call_tool_router, pyStr, h1, h2, h3]

/-- Witness for C7 at the concrete unknown tool name `frobnicate`. -/
theorem unknown_tool_name_success_witness :
    call_tool "frobnicate" none = ⟨[⟨"text", "Unknown tool: " ++ "frobnicate"⟩]⟩ ∧
    ∃ p, "Unknown tool: " ++ "frobnicate" = p ++ "frobnicate" :=
  unknown_tool_name_success "frobnicate" none (by decide) (by decide) (by decide)

/-- C2 (code bug): `list_tools` declares `query` required for
`search_jurisprudence` and `text` required for `extract_citations`, yet
`call_tool` invoked with an empty argument dict does not reject the call: the
missing required argument is silently coerced to `""` and a success envelope
is returned. -/
theorem missing_required_argument_silently_coerced :
    (list_tools.find? (fun t => t.name = "search_jurisprudence")).map
        (fun t => t.inputSchema.required) = some ["query"] ∧
    (list_tools.find? (fun t => t.name = "extract_citations")).map
        (fun t => t.inputSchema.required) = some ["text"] ∧
    call_tool_dispatch "search_jurisprudence" (some emptyArguments)
        = ToolResult.search (_search_jurisprudence "" false 5) ∧
    call_tool_dispatch "extract_citations" (some emptyArguments)
        = ToolResult.citations (_extract_citations "") ∧
    call_tool "search_jurisprudence" (some emptyArguments)
        = ⟨[⟨"text", pyStr (ToolResult.search (_search_jurisprudence "" false 5))⟩]⟩ :=
  ⟨rfl, rfl, rfl, rfl, rfl⟩

/-- C10: For every non-negative `max_results`, the `total_found` field of the
`_search_jurisprudence` result equals the number of entries of its `results`
list, and both equal `min max_results 3`. -/
theorem search_total_found_matches_results (query : String) (agent_focus : Bool)
    (max_results : ℤ) (h : 0 ≤ max_results) :
    (_search_jurisprudence query agent_focus max_results).total_found
        = ((_search_jurisprudence query agent_focus max_results).results.length : ℤ) ∧
    ((_search_jurisprudence query agent_focus max_results).results.length : ℤ)
        = min max_results 3 := by
  have hmin : (0:ℤ) ≤ min max_results 3 := le_min h (by norm_num)
  have hlen : (_search_jurisprudence query agent_focus max_results).results.length
      = (min max_results 3).toNat := by
    simp only [_search_jurisprudence, List.length_map, List.length_range]
  rw [hlen, Int.toNat_of_nonneg hmin]
  exact ⟨rfl, rfl⟩

/-- Witness for C10 at `max_results = 5`. -/
theorem search_total_found_matches_results_witness :
    (_search_jurisprudence "q" false 5).total_found
        = ((_search_jurisprudence "q" false 5).results.length : ℤ) ∧
    ((_search_jurisprudence "q" false 5).results.length : ℤ) = min (5:ℤ) 3 :=
  search_total_found_matches_results "q" false 5 (by decide)

/-- C8: Every result returned by `_search_jurisprudence` carries an
`abgr_related` flag equal to the request's `agent_focus`, for every query,
focus value and result cap. -/
theorem search_results_abgr_flag (query : String) (agent_focus : Bool)
    (max_results : ℤ) :
    ∀ item ∈ (_search_jurisprudence query agent_focus max_results).results,
      item.abgr_related = agent_focus := by
  intro item hitem
  simp only [_search_jurisprudence, List.mem_map] at hitem
  obtain ⟨i, _, rfl⟩ := hitem
  rfl

/-- Witness for C8: the first result of a concrete agent-focused search has
`abgr_related = true`. -/
theorem search_results_abgr_flag_witness :
    (⟨"Legal Document 1", "Content related to: agents", 9/10 - ((0:ℕ):ℚ) * (1/10),
        "AssistMe Knowledge Base", true⟩ : SearchResultItem).abgr_related = true :=
  search_results_abgr_flag "agents" true 5 _ (by
    simp only [_search_jurisprudence]
    refine List.mem_map.mpr ⟨0, by decide, ?_⟩
    simp only [SearchResultItem.mk.injEq]
    exact ⟨by decide, by decide, trivial, trivial, trivial⟩)

/-- C4 (counterexample): at the integer input `max_results = -1` the search
returns an empty results list (0 entries), which is not "at most
`min max_results 3`" since that bound equals `-1`; the claimed bound fails for
negative `max_results`. -/
theorem search_bound_fails_for_negative_max_results :
    ¬ (((_search_jurisprudence "x" false (-1)).results.length : ℤ)
        ≤ min (-1 : ℤ) 3) := by
  have hlen : (_search_jurisprudence "x" false (-1)).results.length = 0 := by
    simp only [_search_jurisprudence, List.length_map, List.length_range]
    decide
  rw [hlen]
  decide

/-- Number of documents served by the stubbed search collaborator
(the literal `3` of `hello_mcp.py` lines 259 and 261). -/
def available_stub_count : ℕ := 3

/-- C4 (amended): for every query, agent focus and integer `max_results`, the
search returns at most `max 0 (min max_results available_stub_count)` results
— which is `min max_results available_stub_count` whenever `max_results` is
non-negative — and every returned `relevance_score` lies in `[0,1]`, with the
scores strictly decreasing by rank. -/
theorem search_results_bound_and_scores (query : String) (agent_focus : Bool)
    (max_results : ℤ) :
    ((_search_jurisprudence query agent_focus max_results).results.length : ℤ)
        ≤ max 0 (min max_results (available_stub_count : ℤ)) ∧
    (∀ item ∈ (_search_jurisprudence query agent_focus max_results).results,
        0 ≤ item.relevance_score ∧ item.relevance_score ≤ 1) ∧
    ((_search_jurisprudence query agent_focus max_results).results.map
        SearchResultItem.relevance_score).Pairwise (fun a b => b < a) := by
  have hcount : (available_stub_count : ℤ) = 3 := rfl
  have hn : (min max_results 3).toNat ≤ 3 := by
    rw [Int.toNat_le]
    exact min_le_right _ _
  refine ⟨?_, ?_, ?_⟩
  · simp only [_search_jurisprudence, List.length_map, List.length_range, hcount]
    rw [Int.toNat_eq_max]
    exact le_of_eq (max_comm _ _)
  · intro item hitem
    simp only [_search_jurisprudence, List.mem_map, List.mem_range] at hitem
    obtain ⟨i, hi, rfl⟩ := hitem
    have hi2 : i ≤ 2 := by omega
    have hiq : (i : ℚ) ≤ 2 := by exact_mod_cast hi2
    have hiq0 : (0 : ℚ) ≤ (i : ℚ) := Nat.cast_nonneg i
    constructor
    · show (0 : ℚ) ≤ 9/10 - (i : ℚ) * (1/10)
      linarith
    · show (9 : ℚ)/10 - (i : ℚ) * (1/10) ≤ 1
      linarith
  · simp only [_search_jurisprudence, List.map_map]
    rw [List.pairwise_map]
    refine (List.pairwise_lt_range _).imp ?_
    intro a b hab
    show (9 : ℚ)/10 - (b : ℚ) * (1/10) < 9/10 - (a : ℚ) * (1/10)
    have : (a : ℚ) < (b : ℚ) := by exact_mod_cast hab
    linarith

/-- Witness for C4 (amended): the first result of a concrete search has its
relevance score within `[0,1]`. -/
theorem search_results_bound_and_scores_witness :
    0 ≤ (⟨"Legal Document 1", "Content related to: x", 9/10 - ((0:ℕ):ℚ) * (1/10),
        "AssistMe Knowledge Base", false⟩ : SearchResultItem).relevance_score ∧
    (⟨"Legal Document 1", "Content related to: x", 9/10 - ((0:ℕ):ℚ) * (1/10),
        "AssistMe Knowledge Base", false⟩ : SearchResultItem).relevance_score ≤ 1 :=
  (search_results_bound_and_scores "x" false 10).2.1 _ (by
    simp only [_search_jurisprudence]
    refine List.mem_map.mpr ⟨0, by decide, ?_⟩
    simp only [SearchResultItem.mk.injEq]
    exact ⟨by decide, by decide, trivial, trivial, trivial⟩)

/-- `String.take` and `String.length` interact as their `List` counterparts. -/
theorem string_take_length (s : String) (n : ℕ) :
    (s.take n).length = min n s.length := by
  show (s.take n).data.length = _
  rw [String.data_take, List.length_take]
  rfl

/-- C5: the echoed `text_analyzed` preview equals the first 100 characters of
the input followed by the `"..."` marker exactly when the input length
exceeds 100 (and equals the unchanged input otherwise), while the citation
extractor — `_extract_citations`, invoked by `call_tool` — receives the full
untruncated text of the request. -/
theorem extract_citations_preview_truncation (text : String) :
    ((_extract_citations text).text_analyzed = text.take 100 ++ "..."
        ↔ 100 < text.length) ∧
    (text.length ≤ 100 → (_extract_citations text).text_analyzed = text) ∧
    (∀ args : ToolArguments, args.text = some text →
        call_tool_dispatch "extract_citations" (some args)
          = ToolResult.citations (_extract_citations text)) := by
  refine ⟨⟨?_, ?_⟩, ?_, ?_⟩
  · intro h
    by_contra hle
    push_neg at hle
    have hta : (_extract_citations text).text_analyzed = text := by
      simp [_extract_citations, Nat.not_lt.mpr hle]
    rw [hta] at h
    have hlen := congrArg String.length h
    rw [String.length_append, string_take_length] at hlen
    have h3 : ("..." : String).length = 3 := rfl
    rw [h3] at hlen
    omega
  · intro h
    simp [_extract_citations, h]
  · intro h
    simp [_extract_citations, Nat.not_lt.mpr h]
  · intro args hargs
    rw [show call_tool_dispatch "extract_citations" (some args)
        = ToolResult.citations (_extract_citations (args.text.getD "")) from rfl,
      hargs]
    rfl

/-- Witness for C5: a short input (length ≤ 100) is echoed unchanged and
passed whole to the extractor. -/
theorem extract_citations_preview_truncation_witness :
    ("hello".length ≤ 100 → (_extract_citations "hello").text_analyzed = "hello") ∧
    ("hello".length ≤ 100) ∧
    (_extract_citations "hello").text_analyzed = "hello" ∧
    call_tool_dispatch "extract_citations"
        (some ⟨none, none, none, some "hello", none⟩)
      = ToolResult.citations (_extract_citations "hello") :=
  ⟨(extract_citations_preview_truncation "hello").2.1, by decide,
   (extract_citations_preview_truncation "hello").2.1 (by decide),
   (extract_citations_preview_truncation "hello").2.2
     ⟨none, none, none, some "hello", none⟩ rfl⟩

/-- C3 (counterexample): on an HTTP timeout `trigger_ingestion` returns the
literal dict of line 169, and that dict has no `success` key at all (its
`success` lookup is `none`, not `some (Json.bool false)`), refuting the claim
that the returned value carries `success=false`. -/
theorem ingestion_timeout_lacks_success_field :
    trigger_ingestion "knowledge_articles_r2r3_en.xml" "government-canada" false
        IngestionHttp.timeout = Except.ok timeoutResult ∧
    Json.get timeoutResult "success" = none ∧
    Json.get timeoutResult "error" = some (Json.str "timeout") :=
  ⟨rfl, rfl, rfl⟩

/-- C3 (amended): when the HTTP POST times out, `trigger_ingestion` returns
(rather than raises) the error dict with `error="timeout"` and a message; the
dict carries no `success` key, so a consumer reading `success` (as
`print_ingestion_summary` and `main` do, via `.get`) observes a falsy value.
A timeout never surfaces as an uncaught exception. -/
theorem ingestion_timeout_returns_error_result (blob_name tenant_id : String)
    (abgr_only : Bool) :
    trigger_ingestion blob_name tenant_id abgr_only IngestionHttp.timeout
        = Except.ok timeoutResult ∧
    Json.get timeoutResult "error" = some (Json.str "timeout") ∧
    Json.get timeoutResult "success" = none ∧
    pyTruthy (Json.get timeoutResult "success") = false :=
  ⟨rfl, rfl, rfl, rfl⟩

end EvaFoundation
